import Mathlib

/-!
# QR code generator form (`js/script.js`)

A shallow embedding of the payload encoder, the Wi-Fi escaping utility, the
debounce helper and the UI state handlers of `js/script.js`, followed by the
properties proved about them.

Modelling conventions:
* a JavaScript string is a list of Unicode scalar values (`Str`); the empty
  list is the only falsy string;
* the DOM is an explicit record (`UI`): form field values, the field groups with
  their class lists, the status line, the QR container and the download link;
* the external `QRCode` library is a parameter (`QRCodeLib`), absent while the
  library has not been loaded.
-/

namespace QRGen

/-! ## Strings -/

/-- JavaScript string values, as sequences of Unicode scalar values. -/
abbrev Str := List Char

/-- The characters of a source string literal. -/
def lit (s : String) : Str := s.toList

/-- The backslash character (U+005C). -/
def backslash : Char := Char.ofNat 92

/-- The double quote character (U+0022). -/
def dquote : Char := Char.ofNat 34

/-- Characters removed by `String.prototype.trim`: ECMAScript `WhiteSpace`
(TAB, VT, FF, ZWNBSP and the Unicode space separators) and `LineTerminator`
(LF, CR, LS, PS). -/
def isWhiteSpace (c : Char) : Bool :=
  let n := c.toNat
  n == 0x09 || n == 0x0A || n == 0x0B || n == 0x0C || n == 0x0D || n == 0x20 ||
  n == 0xA0 || n == 0x1680 || (0x2000 ≤ n && n ≤ 0x200A) || n == 0x2028 ||
  n == 0x2029 || n == 0x202F || n == 0x205F || n == 0x3000 || n == 0xFEFF

/-- Truthiness of a string: every string but the empty one. -/
def truthy (s : Str) : Bool := !s.isEmpty

/-- The method `String.prototype.trim`: white space is removed from both ends. -/
def trim (s : Str) : Str :=
  (s.dropWhile isWhiteSpace).rdropWhile isWhiteSpace

/-! ## Escaping utility

`value.replace(/([\\;,:\"])/g, "\\$1")`: a global replace whose pattern is one
capturing character class and whose replacement template is a backslash
followed by the captured character. -/

/-- A piece of a replacement template: a literal character or `$1`. -/
inductive ReplTok where
  | chr (c : Char)
  | group1
  deriving DecidableEq, Repr

/-- Expansion of a replacement template for a match whose group 1 is `c`. -/
def expandTemplate (tpl : List ReplTok) (c : Char) : Str :=
  tpl.map fun t =>
    match t with
    | ReplTok.chr d => d
    | ReplTok.group1 => c

/-- Global replace for a pattern that is a single capturing character class:
each matching character is replaced by the expanded template, every other
character is copied. -/
def replaceClassAll (cls : Char → Bool) (tpl : List ReplTok) : Str → Str
  | [] => []
  | c :: rest =>
    (if cls c then expandTemplate tpl c else [c]) ++ replaceClassAll cls tpl rest

/-- The character class `[\\;,:\"]`. -/
def wifiReserved (c : Char) : Bool :=
  c == backslash || c == ';' || c == ',' || c == ':' || c == dquote

/-- The function `escapeWifi`. -/
def escapeWifi (value : Str) : Str :=
  replaceClassAll wifiReserved [ReplTok.chr backslash, ReplTok.group1] value

/-! ## Query-parameter serialisation (`URLSearchParams`)

The `application/x-www-form-urlencoded` serialiser of the URL standard: names
and values are UTF-8 encoded, a space becomes `+`, ASCII letters and digits and
`*`, `-`, `.`, `_` are kept, every other byte is written `%XX`. -/

/-- UTF-8 bytes of one scalar value. -/
def utf8Bytes (c : Char) : List Nat :=
  let n := c.toNat
  if n < 0x80 then [n]
  else if n < 0x800 then [0xC0 + n / 64, 0x80 + n % 64]
  else if n < 0x10000 then [0xE0 + n / 4096, 0x80 + (n / 64) % 64, 0x80 + n % 64]
  else [0xF0 + n / 262144, 0x80 + (n / 4096) % 64, 0x80 + (n / 64) % 64, 0x80 + n % 64]

/-- Upper-case hexadecimal digit. -/
def hexDigit (d : Nat) : Char :=
  if d < 10 then Char.ofNat (48 + d) else Char.ofNat (55 + d)

/-- Bytes the serialiser leaves as they are. -/
def urlencodedSafe (b : Nat) : Bool :=
  (0x30 ≤ b && b ≤ 0x39) || (0x41 ≤ b && b ≤ 0x5A) || (0x61 ≤ b && b ≤ 0x7A) ||
  b == 0x2A || b == 0x2D || b == 0x2E || b == 0x5F

/-- Percent-encoding of one byte, with space as plus. -/
def urlencodeByte (b : Nat) : Str :=
  if b = 0x20 then ['+']
  else if urlencodedSafe b then [Char.ofNat b]
  else ['%', hexDigit (b / 16), hexDigit (b % 16)]

/-- Percent-encoding of a string after UTF-8 encoding. -/
def urlencode : Str → Str
  | [] => []
  | c :: rest => ((utf8Bytes c).map urlencodeByte).flatten ++ urlencode rest

/-- The object `URLSearchParams`: its list of name-value pairs. -/
abbrev URLSearchParams := List (Str × Str)

/-- The method `URLSearchParams.prototype.append`. -/
def URLSearchParams.append (params : URLSearchParams) (name value : Str) : URLSearchParams :=
  params ++ [(name, value)]

/-- The serialiser loop: the output so far and the pairs still to write. -/
def urlencodedSerialize (output : Str) : List (Str × Str) → Str
  | [] => output
  | (name, value) :: rest =>
    let output1 := if output.isEmpty then output else output ++ ['&']
    urlencodedSerialize (output1 ++ urlencode name ++ ['='] ++ urlencode value) rest

/-- The method `URLSearchParams.prototype.toString`. -/
def URLSearchParams.toStr (params : URLSearchParams) : Str :=
  urlencodedSerialize [] params

/-! ## Payload encoder -/

/-- Values of the form controls, by element id. -/
structure Fields where
  dataType : Str
  url : Str
  text : Str
  wifiSsid : Str
  wifiPassword : Str
  wifiEncryption : Str
  wifiHidden : Bool
  emailTo : Str
  emailSubject : Str
  emailBody : Str
  smsNumber : Str
  smsMessage : Str
  phoneNumber : Str
  size : Str
  colorDark : Str
  colorLight : Str
  errorLevel : Str
  autoGenerate : Bool
  deriving DecidableEq, Repr

/-- The function `buildPayload`, reading the form controls from `f`. -/
def buildPayload (f : Fields) : Str :=
  let type := f.dataType
  if type = lit "url" then
    trim f.url
  else if type = lit "text" then
    trim f.text
  else if type = lit "wifi" then
    let ssid := trim f.wifiSsid
    let password := trim f.wifiPassword
    let encryption := f.wifiEncryption
    let hidden := f.wifiHidden
    if ssid.isEmpty then []
    else
      let hiddenPart := if hidden then lit "H:true;" else []
      let passwordPart :=
        if truthy password then lit "P:" ++ escapeWifi password ++ lit ";" else []
      lit "WIFI:T:" ++ encryption ++ lit ";S:" ++ escapeWifi ssid ++ lit ";" ++
        passwordPart ++ hiddenPart ++ lit ";"
  else if type = lit "email" then
    let recipient := trim f.emailTo
    let subject := trim f.emailSubject
    let body := trim f.emailBody
    if recipient.isEmpty then []
    else
      let params : URLSearchParams := []
      let params := if truthy subject then params.append (lit "subject") subject else params
      let params := if truthy body then params.append (lit "body") body else params
      let query := params.toStr
      if truthy query then lit "mailto:" ++ recipient ++ lit "?" ++ query
      else lit "mailto:" ++ recipient
  else if type = lit "sms" then
    let number := trim f.smsNumber
    let message := trim f.smsMessage
    if number.isEmpty then []
    else if truthy message then lit "SMSTO:" ++ number ++ lit ":" ++ message
    else lit "SMSTO:" ++ number
  else if type = lit "phone" then
    let number := trim f.phoneNumber
    if truthy number then lit "tel:" ++ number else []
  else []

/-! ## UI state -/

/-- An element matched by `[data-type-group]`: its tag and its class list. -/
structure Group where
  groupType : Str
  classList : List Str
  deriving DecidableEq, Repr

/-- The method `classList.add(token)`. -/
def classAdd (classes : List Str) (token : Str) : List Str :=
  if token ∈ classes then classes else classes ++ [token]

/-- The method `classList.remove(token)`. -/
def classRemove (classes : List Str) (token : Str) : List Str :=
  classes.filter fun c => c != token

/-- The method `classList.toggle(token, force)`. -/
def classToggle (classes : List Str) (token : Str) (force : Bool) : List Str :=
  if force then classAdd classes token else classRemove classes token

/-- Elements found inside the QR container: the placeholder element, an image
with its `src`, or a canvas with the data URL that `toDataURL("image/png")`
returns for it. -/
inductive QrNode where
  | placeholder
  | img (src : Str)
  | canvas (dataUrl : Str)
  deriving DecidableEq, Repr

/-- The download link: class list, `aria-disabled` and `href` attributes. -/
structure Download where
  classList : List Str
  ariaDisabled : Option Str
  href : Option Str
  deriving DecidableEq, Repr

/-- The options object handed to `new QRCode`; a width or height of `none` is
`NaN`, a correction level of `none` is `undefined`. -/
structure RenderOptions where
  text : Str
  width : Option Int
  height : Option Int
  colorDark : Str
  colorLight : Str
  correctLevel : Option Nat
  deriving DecidableEq, Repr

/-- The external `QRCode` library: the table `QRCode.CorrectLevel` and the
constructor, which leaves child nodes in the (emptied) container and either
returns (`true`) or throws (`false`). -/
structure QRCodeLib where
  correctLevel : Str → Option Nat
  construct : RenderOptions → List QrNode × Bool

/-- The page state the script reads and writes. The last three fields are
history variables: every `setStatus` call, every `generateQRCode` call and
every `new QRCode` call, oldest first. -/
structure UI where
  fields : Fields
  defaults : Fields
  typeGroups : List Group
  sizeValue : Str
  payloadPreview : Str
  statusText : Str
  statusTone : Option Str
  qr : List QrNode
  download : Download
  statusLog : List (Str × Str)
  generateLog : List Str
  renderLog : List RenderOptions
  deriving DecidableEq, Repr

/-- The function `setStatus`. -/
def setStatus (message tone : Str) (s : UI) : UI :=
  { s with statusText := message, statusTone := some tone,
           statusLog := s.statusLog ++ [(message, tone)] }

/-- The function `updatePayloadPreview`. -/
def updatePayloadPreview (s : UI) : UI :=
  let payload := buildPayload s.fields
  { s with payloadPreview :=
      if truthy payload then payload else lit "Add content to see the payload preview." }

/-- The function `updateSizeLabel`. -/
def updateSizeLabel (s : UI) : UI :=
  { s with sizeValue := s.fields.size ++ lit "px" }

/-- The function `updateTypeVisibility`. -/
def updateTypeVisibility (s : UI) : UI :=
  let currentType := s.fields.dataType
  { s with typeGroups := s.typeGroups.map fun group =>
      let groupType := group.groupType
      { group with classList := classToggle group.classList (lit "hidden") (groupType != currentType) } }

/-- The call `qr.querySelector("img")`, giving the `src` of the first image. -/
def queryImg : List QrNode → Option Str
  | [] => none
  | QrNode.img src :: _ => some src
  | _ :: rest => queryImg rest

/-- The call `qr.querySelector("canvas")`, giving the data URL of the first canvas. -/
def queryCanvas : List QrNode → Option Str
  | [] => none
  | QrNode.canvas dataUrl :: _ => some dataUrl
  | _ :: rest => queryCanvas rest

/-- The function `getQrImageUrl`. -/
def getQrImageUrl (qr : List QrNode) : Str :=
  let img := queryImg qr
  let canvas := queryCanvas qr
  match img with
  | some src =>
    if src.isEmpty then
      match canvas with
      | some dataUrl => dataUrl
      | none => []
    else src
  | none =>
    match canvas with
    | some dataUrl => dataUrl
    | none => []

/-- The function `setDownloadState`. -/
def setDownloadState (url : Str) (s : UI) : UI :=
  if url.isEmpty then
    { s with download :=
        { classList := classAdd s.download.classList (lit "is-disabled"),
          ariaDisabled := some (lit "true"),
          href := none } }
  else
    { s with download :=
        { classList := classRemove s.download.classList (lit "is-disabled"),
          ariaDisabled := some (lit "false"),
          href := some url } }

/-- The function `clearQRCode`. -/
def clearQRCode (s : UI) : UI :=
  setDownloadState [] { s with qr := [QrNode.placeholder] }

/-- The call `Number.parseInt(value, 10)`; `none` is `NaN`. -/
def parseInt10 (value : Str) : Option Int :=
  let s1 := value.dropWhile isWhiteSpace
  let signed : Bool × Str :=
    match s1 with
    | '-' :: r => (true, r)
    | '+' :: r => (false, r)
    | _ => (false, s1)
  let digits := signed.2.takeWhile Char.isDigit
  if digits.isEmpty then none
  else
    let n : Nat := digits.foldl (fun acc d => 10 * acc + (d.toNat - 48)) 0
    some (if signed.1 then -(n : Int) else (n : Int))

/-- The expression `a || b` on correction levels: `undefined` and `0` are falsy. -/
def levelOr (a b : Option Nat) : Option Nat :=
  match a with
  | some v => if v = 0 then b else some v
  | none => b

/-- The function `generateQRCode`; `lib = none` is `typeof QRCode === "undefined"`. -/
def generateQRCode (lib : Option QRCodeLib) (payload : Str) (s : UI) : UI :=
  let s := clearQRCode { s with generateLog := s.generateLog ++ [payload] }
  match lib with
  | none => setStatus (lit "QR library still loading. Try again in a moment.") (lit "error") s
  | some QRCode =>
    let size := parseInt10 s.fields.size
    let colorDark := s.fields.colorDark
    let colorLight := s.fields.colorLight
    let correction := s.fields.errorLevel
    let options : RenderOptions :=
      { text := payload, width := size, height := size,
        colorDark := colorDark, colorLight := colorLight,
        correctLevel := levelOr (QRCode.correctLevel correction) (QRCode.correctLevel (lit "M")) }
    let s := { s with qr := [] }
    let built := QRCode.construct options
    let s := { s with qr := built.1, renderLog := s.renderLog ++ [options] }
    if built.2 then
      let url := getQrImageUrl s.qr
      let s := setDownloadState url s
      setStatus (lit "QR code ready to download.") (lit "success") s
    else s

/-- The function `validatePayload`. -/
def validatePayload (payload : Str) (s : UI) : Bool × UI :=
  if payload.isEmpty then
    (false, setStatus (lit "Add content to generate a QR code.") (lit "error") s)
  else (true, s)

/-- The function `handleGenerate`. -/
def handleGenerate (lib : Option QRCodeLib) (s : UI) : UI :=
  let payload := buildPayload s.fields
  let s := updatePayloadPreview s
  let checked := validatePayload payload s
  if checked.1 then
    let s := setStatus (lit "Generating QR code...") (lit "info") checked.2
    generateQRCode lib payload s
  else checked.2

/-- The function `handleReset`; `form.reset()` restores the default values. -/
def handleReset (s : UI) : UI :=
  let s := { s with fields := s.defaults }
  let s := updateTypeVisibility s
  let s := updateSizeLabel s
  let s := updatePayloadPreview s
  let s := setStatus (lit "Form reset. Ready for a new QR code.") (lit "info") s
  clearQRCode s

/-- The callback wrapped by `debounce` in `handleFormInput`. -/
def formInputCallback (lib : Option QRCodeLib) (s : UI) : UI :=
  let s := updatePayloadPreview s
  if s.fields.autoGenerate then handleGenerate lib s else s

/-- The `change` listener of the type selector. -/
def typeChangeListener (s : UI) : UI :=
  updatePayloadPreview (updateTypeVisibility s)

/-- The statements run when the script is loaded. -/
def initialise (s : UI) : UI :=
  let s := updateTypeVisibility s
  let s := updateSizeLabel s
  let s := updatePayloadPreview s
  let s := setStatus (lit "Ready to generate your first QR code.") (lit "info") s
  clearQRCode s

/-- An event of the page: the library finishes loading, the user changes form
controls, or one of the listeners runs. -/
inductive Event where
  | libLoaded (QRCode : QRCodeLib)
  | edit (f : Fields)
  | typeChange
  | formInput
  | sizeInput
  | generate
  | reset

/-- The page: the `QRCode` global (absent until the library is loaded) and the UI. -/
structure Page where
  lib : Option QRCodeLib
  ui : UI

/-- One event handled by the page. -/
def step (p : Page) : Event → Page
  | Event.libLoaded QRCode =>
    match p.lib with
    | none => { p with lib := some QRCode }
    | some _ => p
  | Event.edit f => { p with ui := { p.ui with fields := f } }
  | Event.typeChange => { p with ui := typeChangeListener p.ui }
  | Event.formInput => { p with ui := formInputCallback p.lib p.ui }
  | Event.sizeInput => { p with ui := updateSizeLabel p.ui }
  | Event.generate => { p with ui := handleGenerate p.lib p.ui }
  | Event.reset => { p with ui := handleReset p.ui }

/-- The page after a sequence of events. -/
def run (p : Page) (events : List Event) : Page :=
  events.foldl step p

/-- The page right after the script has been loaded over the document `s0`. -/
def startPage (lib : Option QRCodeLib) (s0 : UI) : Page :=
  { lib := lib, ui := initialise s0 }

/-! ## Debounce

`debounce(fn, wait)` keeps one variable, `timeout`, holding the id of the timer
set by the latest call. The host's timer table is explicit: a timer is an id, a
due time and the arguments `fn` will be called with. Times are in milliseconds. -/

/-- A pending timer. -/
structure Timer (α : Type) where
  id : Nat
  due : Nat
  args : α

/-- The state of one debounced function: the closure variable `timeout`, the
pending timers, the next fresh timer id, and the calls of `fn` made so far
(time and arguments, oldest first). -/
structure Debounced (α : Type) where
  wait : Nat
  timeout : Option Nat
  pending : List (Timer α)
  nextId : Nat
  calls : List (Nat × α)

/-- The function `debounce`: no timer yet. -/
def debounce {α : Type} (wait nextId : Nat) : Debounced α :=
  { wait := wait, timeout := none, pending := [], nextId := nextId, calls := [] }

/-- The call `clearTimeout(timeout)`. -/
def clearTimeout {α : Type} (d : Debounced α) : Debounced α :=
  match d.timeout with
  | none => d
  | some i => { d with pending := d.pending.filter fun t => t.id != i }

/-- The call `setTimeout(() => fn(...args), wait)` made at time `now`, giving the new id. -/
def setTimeout {α : Type} (now : Nat) (args : α) (d : Debounced α) : Nat × Debounced α :=
  (d.nextId,
   { d with pending := d.pending ++ [{ id := d.nextId, due := now + d.wait, args := args }],
            nextId := d.nextId + 1 })

/-- The host runs the pending timers selected by `ready`, earliest due time first. -/
def fire {α : Type} (ready : Nat → Bool) (d : Debounced α) : Debounced α :=
  let fired := (d.pending.filter fun t => ready t.due).insertionSort fun a b => a.due ≤ b.due
  { d with pending := d.pending.filter fun t => !ready t.due,
           calls := d.calls ++ fired.map fun t => (t.due, t.args) }

/-- The debounced function called at time `now`: timers already due have run;
then the pending timer is cleared and a new one is set. -/
def debouncedCall {α : Type} (now : Nat) (args : α) (d : Debounced α) : Debounced α :=
  let d := fire (fun due => due ≤ now) d
  let d := clearTimeout d
  let started := setTimeout now args d
  { started.2 with timeout := some started.1 }

/-- The debounced function called for each edit in turn (time and arguments). -/
def debouncedCalls {α : Type} (d : Debounced α) (edits : List (Nat × α)) : Debounced α :=
  edits.foldl (fun d e => debouncedCall e.1 e.2 d) d

/-- The host runs every timer that is still pending. -/
def settle {α : Type} (d : Debounced α) : Debounced α :=
  fire (fun _ => true) d

/-- The wait passed to `debounce` for `handleFormInput`. -/
def formInputWait : Nat := 200

/-! ## Vocabulary of the properties -/

/-- The six enumerated content types. -/
def contentTypes : List Str :=
  [lit "url", lit "text", lit "wifi", lit "email", lit "sms", lit "phone"]

/-- The required field of the selected content type. -/
def requiredField (f : Fields) : Str :=
  if f.dataType = lit "url" then f.url
  else if f.dataType = lit "text" then f.text
  else if f.dataType = lit "wifi" then f.wifiSsid
  else if f.dataType = lit "email" then f.emailTo
  else if f.dataType = lit "sms" then f.smsNumber
  else f.phoneNumber

/-- A string that is empty or consists only of white space. -/
def Blank (s : Str) : Prop := ∀ c ∈ s, isWhiteSpace c = true

instance (s : Str) : Decidable (Blank s) := by
  unfold Blank
  infer_instance

/-- Escaping as the specification words it: the input is copied left to right,
with one backslash put before each backslash, semicolon, comma, colon or double
quote. -/
def specEscape : Str → Str
  | [] => []
  | c :: rest =>
    if c = backslash ∨ c = ';' ∨ c = ',' ∨ c = ':' ∨ c = dquote then
      backslash :: c :: specEscape rest
    else c :: specEscape rest

/-- Query-parameter serialisation as the specification words it: each pair is
written name `=` value, both form-urlencoded, and the pairs are joined by `&`. -/
def specQuery (pairs : List (Str × Str)) : Str :=
  List.intercalate ['&'] (pairs.map fun p => urlencode p.1 ++ ['='] ++ urlencode p.2)

/-- The pairs among subject and body whose value is not empty, subject first. -/
def nonBlankPairs (subject body : Str) : List (Str × Str) :=
  [(lit "subject", subject), (lit "body", body)].filter fun p => !p.2.isEmpty

/-- Number of reserved characters in a string. -/
def reservedCount (s : Str) : Nat := s.countP wifiReserved

/-- The decoder of escaped text: scanning left to right, a backslash and the
character after it are replaced by that character. -/
def unescapeWifi : Str → Str
  | [] => []
  | [c] => [c]
  | c :: d :: rest =>
    if c = backslash then d :: unescapeWifi rest else c :: unescapeWifi (d :: rest)

/-- Reading one escaped field of a Wi-Fi payload: the decoded text up to the
first semicolon that is not escaped, and what follows that semicolon. -/
def decodeField : Str → Str × Str
  | [] => ([], [])
  | [c] => if c = ';' then ([], []) else ([c], [])
  | c :: d :: rest =>
    if c = backslash then ((d :: (decodeField rest).1), (decodeField rest).2)
    else if c = ';' then ([], d :: rest)
    else ((c :: (decodeField (d :: rest)).1), (decodeField (d :: rest)).2)

/-- Whether the letter S is somewhere directly followed by a colon. -/
def hasSColon : Str → Bool
  | [] => false
  | [_] => false
  | a :: b :: rest => (a == 'S' && b == ':') || hasSColon (b :: rest)

/-- The part of a Wi-Fi payload that follows `;S:`, for a trimmed SSID and
password and the hidden flag. -/
def wifiTail (ssid password : Str) (hidden : Bool) : Str :=
  escapeWifi ssid ++ lit ";" ++
    (if password = [] then [] else lit "P:" ++ escapeWifi password ++ lit ";") ++
    (if hidden = true then lit "H:true;" else []) ++ lit ";"

/-- A group is visible when its class list lacks `hidden`. -/
def Group.visible (g : Group) : Bool := !(g.classList.contains (lit "hidden"))

/-- The link is disabled and has no target. -/
def Download.disabled (d : Download) : Prop :=
  lit "is-disabled" ∈ d.classList ∧ d.ariaDisabled = some (lit "true") ∧ d.href = none

instance (d : Download) : Decidable d.disabled := by
  unfold Download.disabled
  infer_instance

/-- The link is enabled and has a non-empty target. -/
def Download.enabled (d : Download) : Prop :=
  lit "is-disabled" ∉ d.classList ∧ d.ariaDisabled = some (lit "false") ∧
    d.href ≠ none ∧ d.href ≠ some []

instance (d : Download) : Decidable d.enabled := by
  unfold Download.enabled
  infer_instance

/-- The options `generateQRCode` builds for a payload from the form controls. -/
def optionsFor (QRCode : QRCodeLib) (payload : Str) (f : Fields) : RenderOptions :=
  { text := payload, width := parseInt10 f.size, height := parseInt10 f.size,
    colorDark := f.colorDark, colorLight := f.colorLight,
    correctLevel := levelOr (QRCode.correctLevel f.errorLevel) (QRCode.correctLevel (lit "M")) }

/-- The state of the download link in a page: it is disabled without target or
enabled with a non-empty target; when enabled its target is the URL extracted
from the container; it is disabled while the container holds only the
placeholder; and the container holds only the placeholder while the library is
not loaded. -/
def DownloadInv (p : Page) : Prop :=
  (p.ui.download.disabled ∨ p.ui.download.enabled) ∧
  (p.ui.download.enabled → p.ui.download.href = some (getQrImageUrl p.ui.qr)) ∧
  (p.ui.qr = [QrNode.placeholder] → p.ui.download.disabled) ∧
  (p.lib = none → p.ui.qr = [QrNode.placeholder])

/-- A debounced function with exactly one pending timer, set by an edit at time
`t` with arguments `a`, and no call of `fn` made yet. -/
def Armed {α : Type} (d : Debounced α) (wait t : Nat) (a : α) : Prop :=
  d.wait = wait ∧ d.calls = [] ∧
    ∃ i, d.timeout = some i ∧ d.pending = [{ id := i, due := t + wait, args := a }]

/-- The three tones of a status message. -/
def tones : List Str := [lit "info", lit "success", lit "error"]

/-! ## Sample inputs -/

/-- A form with every text control empty. -/
def emptyFields : Fields :=
  { dataType := lit "url", url := [], text := [], wifiSsid := [], wifiPassword := [],
    wifiEncryption := lit "WPA", wifiHidden := false, emailTo := [], emailSubject := [],
    emailBody := [], smsNumber := [], smsMessage := [], phoneNumber := [],
    size := lit "256", colorDark := lit "#000000", colorLight := lit "#ffffff",
    errorLevel := lit "M", autoGenerate := false }

/-- The Wi-Fi example of the specification. -/
def wifiExample : Fields :=
  { emptyFields with dataType := lit "wifi", wifiSsid := lit "My;Net",
                     wifiPassword := [Char.ofNat 112, dquote, Char.ofNat 119],
                     wifiHidden := true }

/-- The email example of the specification. -/
def emailExample : Fields :=
  { emptyFields with dataType := lit "email", emailTo := lit "a@b.com", emailBody := lit "hi" }

/-- The six field groups of the form, all of them shown. -/
def sampleGroups : List Group :=
  contentTypes.map fun t => { groupType := t, classList := [lit "field-group"] }

/-- A document before the script runs: the download link still carries a target. -/
def sampleUI : UI :=
  { fields := emptyFields, defaults := emptyFields, typeGroups := sampleGroups,
    sizeValue := [], payloadPreview := [], statusText := [], statusTone := none,
    qr := [QrNode.placeholder],
    download := { classList := [lit "btn"], ariaDisabled := none, href := some (lit "#") },
    statusLog := [], generateLog := [], renderLog := [] }

/-- A library whose constructor draws a canvas and an image without `src`. -/
def sampleLib : QRCodeLib :=
  { correctLevel := fun k =>
      if k = lit "L" then some 1 else if k = lit "M" then some 0
      else if k = lit "Q" then some 3 else if k = lit "H" then some 2 else none,
    construct := fun o => ([QrNode.canvas (lit "data:image/png;base64," ++ o.text), QrNode.img []], true) }

/-- The sample document with a URL typed in. -/
def urlUI : UI :=
  { sampleUI with fields := { emptyFields with url := lit "https://example.com" } }

/-- Three field edits, each less than 200 ms after the one before. -/
def sampleEdits : List (Nat × Str) :=
  [(0, lit "h"), (120, lit "ht"), (310, lit "htt")]
/-! ## Strings: lemmas -/

theorem trim_eq_nil_iff (s : Str) : trim s = [] ↔ Blank s := by
  unfold trim Blank
  rw [List.rdropWhile_eq_nil_iff]
  constructor
  · intro h
    have hd : s.dropWhile isWhiteSpace = [] := by
      by_contra hne
      have h1 := List.head_dropWhile_not isWhiteSpace s hne
      have h2 := h _ (List.head_mem hne)
      simp [h2] at h1
    exact List.dropWhile_eq_nil_iff.mp hd
  · intro h c hc
    exact h c ((List.dropWhile_suffix isWhiteSpace).subset hc)

@[simp] theorem truthy_iff (s : Str) : truthy s = true ↔ s ≠ [] := by
  cases s <;> simp [truthy]

theorem not_blank_iff (s : Str) : ¬ Blank s ↔ ∃ c ∈ s, isWhiteSpace c = false := by
  unfold Blank
  simp

theorem lit_wifi_head : lit "WIFI:T:" = ['W', 'I', 'F', 'I', ':', 'T', ':'] := rfl
theorem lit_mailto : lit "mailto:" = ['m', 'a', 'i', 'l', 't', 'o', ':'] := rfl
theorem lit_smsto : lit "SMSTO:" = ['S', 'M', 'S', 'T', 'O', ':'] := rfl
theorem lit_tel : lit "tel:" = ['t', 'e', 'l', ':'] := rfl
theorem lit_ssid_tag : lit ";S:" = [';', 'S', ':'] := rfl
theorem lit_semicolon : lit ";" = [';'] := rfl
theorem lit_password_tag : lit "P:" = ['P', ':'] := rfl
theorem lit_hidden : lit "H:true;" = ['H', ':', 't', 'r', 'u', 'e', ';'] := rfl

/-! ## Escaping: lemmas -/

theorem escapeWifi_nil : escapeWifi [] = [] := rfl

theorem escapeWifi_cons (c : Char) (s : Str) :
    escapeWifi (c :: s) =
      if wifiReserved c then backslash :: c :: escapeWifi s else c :: escapeWifi s := by
  unfold escapeWifi
  by_cases h : wifiReserved c <;> simp [replaceClassAll, expandTemplate, h]

theorem escapeWifi_eq_specEscape (s : Str) : escapeWifi s = specEscape s := by
  induction s with
  | nil => rfl
  | cons c s ih =>
    rw [escapeWifi_cons, specEscape, ih]
    simp [wifiReserved, or_assoc]

/-! ## Payload encoder: one lemma per branch -/

theorem buildPayload_url (f : Fields) (h : f.dataType = lit "url") :
    buildPayload f = trim f.url := by
  simp +decide [buildPayload, h]

theorem buildPayload_text (f : Fields) (h : f.dataType = lit "text") :
    buildPayload f = trim f.text := by
  simp +decide [buildPayload, h]

theorem buildPayload_wifi (f : Fields) (h : f.dataType = lit "wifi") :
    buildPayload f =
      if trim f.wifiSsid = [] then []
      else lit "WIFI:T:" ++ f.wifiEncryption ++ lit ";S:" ++ escapeWifi (trim f.wifiSsid) ++
        lit ";" ++
        (if trim f.wifiPassword = [] then []
          else lit "P:" ++ escapeWifi (trim f.wifiPassword) ++ lit ";") ++
        (if f.wifiHidden = true then lit "H:true;" else []) ++ lit ";" := by
  simp +decide [buildPayload, h]

theorem buildPayload_email (f : Fields) (h : f.dataType = lit "email") :
    buildPayload f =
      if trim f.emailTo = [] then []
      else if trim f.emailSubject = [] then
        if trim f.emailBody = [] then lit "mailto:" ++ trim f.emailTo
        else lit "mailto:" ++ trim f.emailTo ++ lit "?" ++
          (urlencode (lit "body") ++ ['='] ++ urlencode (trim f.emailBody))
      else
        if trim f.emailBody = [] then
          lit "mailto:" ++ trim f.emailTo ++ lit "?" ++
            (urlencode (lit "subject") ++ ['='] ++ urlencode (trim f.emailSubject))
        else lit "mailto:" ++ trim f.emailTo ++ lit "?" ++
          (urlencode (lit "subject") ++ ['='] ++ urlencode (trim f.emailSubject) ++ ['&'] ++
            urlencode (lit "body") ++ ['='] ++ urlencode (trim f.emailBody)) := by
  by_cases hr : trim f.emailTo = [] <;> by_cases hs : trim f.emailSubject = [] <;>
    by_cases hb : trim f.emailBody = [] <;>
    simp +decide [buildPayload, h, hr, hs, hb, URLSearchParams.append, URLSearchParams.toStr,
      urlencodedSerialize]

theorem buildPayload_sms (f : Fields) (h : f.dataType = lit "sms") :
    buildPayload f =
      if trim f.smsNumber = [] then []
      else if trim f.smsMessage = [] then lit "SMSTO:" ++ trim f.smsNumber
      else lit "SMSTO:" ++ trim f.smsNumber ++ lit ":" ++ trim f.smsMessage := by
  simp +decide [buildPayload, h]

theorem buildPayload_phone (f : Fields) (h : f.dataType = lit "phone") :
    buildPayload f = if trim f.phoneNumber = [] then [] else lit "tel:" ++ trim f.phoneNumber := by
  simp +decide [buildPayload, h]

/-- Claim C1: for each of the six content types, `buildPayload` gives the empty
string exactly when the required field of that type is empty or all white
space, and a required field with a character that is not white space gives a
non-empty payload, whatever the other fields hold. -/
theorem buildPayload_empty_iff_required_blank (f : Fields) (h : f.dataType ∈ contentTypes) :
    (buildPayload f = [] ↔ Blank (requiredField f)) ∧
    ((∃ c ∈ requiredField f, isWhiteSpace c = false) → buildPayload f ≠ []) := by
  have key : buildPayload f = [] ↔ Blank (requiredField f) := by
    simp only [contentTypes, List.mem_cons, List.mem_singleton, List.not_mem_nil, or_false] at h
    rcases h with h | h | h | h | h | h
    · rw [buildPayload_url f h, trim_eq_nil_iff]; simp [requiredField, h]
    · rw [buildPayload_text f h, trim_eq_nil_iff]; simp +decide [requiredField, h]
    · rw [buildPayload_wifi f h, ← trim_eq_nil_iff]
      simp +decide [requiredField, h, lit_wifi_head]
    · rw [buildPayload_email f h, ← trim_eq_nil_iff]
      have e : requiredField f = f.emailTo := by simp +decide [requiredField, h]
      rw [e]
      by_cases hr : trim f.emailTo = []
      · simp [hr]
      · simp only [hr, if_false, iff_false]
        split_ifs <;> simp [lit_mailto]
    · rw [buildPayload_sms f h, ← trim_eq_nil_iff]
      have e : requiredField f = f.smsNumber := by simp +decide [requiredField, h]
      rw [e]
      by_cases hr : trim f.smsNumber = []
      · simp [hr]
      · simp only [hr, if_false, iff_false]
        split_ifs <;> simp [lit_smsto]
    · rw [buildPayload_phone f h, ← trim_eq_nil_iff]
      simp +decide [requiredField, h, lit_tel]
  refine ⟨key, fun hc => ?_⟩
  rw [Ne, key, not_blank_iff]
  exact hc

/-- Claim C2: for type wifi with an SSID that is non-empty after trimming, the
payload is `WIFI:T:` + encryption + `;S:` + E(ssid) + `;` + P + H + `;`, where
E is the escaping described by the specification, P is `P:` + E(password) + `;`
for a non-empty trimmed password and empty otherwise, and H is `H:true;` when
the hidden flag is set and empty otherwise; the SSID `My;Net` with the password
`p"w`, encryption WPA and the hidden flag set gives
`WIFI:T:WPA;S:My\;Net;P:p\"w;H:true;;`. -/
theorem buildPayload_wifi_format (f : Fields) (h : f.dataType = lit "wifi")
    (hs : trim f.wifiSsid ≠ []) :
    buildPayload f =
      lit "WIFI:T:" ++ f.wifiEncryption ++ lit ";S:" ++ specEscape (trim f.wifiSsid) ++ lit ";" ++
        (if trim f.wifiPassword ≠ [] then lit "P:" ++ specEscape (trim f.wifiPassword) ++ lit ";"
          else []) ++
        (if f.wifiHidden = true then lit "H:true;" else []) ++ lit ";" ∧
    (f.wifiSsid = lit "My;Net" → f.wifiPassword = ['p', dquote, 'w'] →
      f.wifiEncryption = lit "WPA" → f.wifiHidden = true →
      buildPayload f =
        lit "WIFI:T:WPA;S:My" ++ [backslash] ++ lit ";Net;P:p" ++ [backslash, dquote] ++
          lit "w;H:true;;") := by
  constructor
  · rw [buildPayload_wifi f h, if_neg hs, escapeWifi_eq_specEscape, escapeWifi_eq_specEscape]
    by_cases hp : trim f.wifiPassword = [] <;> simp [hp]
  · intro h1 h2 h3 h4
    rw [buildPayload_wifi f h, h1, h2, h3, h4]
    decide

/-- Witness for claim C2: the specification's example form. -/
theorem buildPayload_wifi_format_witness :
    (wifiExample.dataType = lit "wifi" ∧ trim wifiExample.wifiSsid ≠ []) ∧
    buildPayload wifiExample =
      lit "WIFI:T:WPA;S:My" ++ [backslash] ++ lit ";Net;P:p" ++ [backslash, dquote] ++
        lit "w;H:true;;" :=
  ⟨⟨rfl, by decide⟩,
    (buildPayload_wifi_format wifiExample rfl (by decide)).2 rfl rfl rfl rfl⟩

theorem reservedCount_cons (c : Char) (s : Str) :
    reservedCount (c :: s) = reservedCount s + (if wifiReserved c then 1 else 0) := by
  unfold reservedCount
  rw [List.countP_cons]

theorem wifiReserved_backslash : wifiReserved backslash = true := by decide

theorem escapeWifi_length (s : Str) : (escapeWifi s).length = s.length + reservedCount s := by
  induction s with
  | nil => rfl
  | cons c s ih =>
    rw [escapeWifi_cons, reservedCount_cons]
    by_cases h : wifiReserved c = true
    · simp [h, ih]; omega
    · simp [h, ih]; omega

theorem reservedCount_escapeWifi (s : Str) :
    reservedCount (escapeWifi s) = 2 * reservedCount s := by
  induction s with
  | nil => rfl
  | cons c s ih =>
    rw [escapeWifi_cons, reservedCount_cons]
    by_cases h : wifiReserved c = true
    · simp [h, ih, reservedCount_cons, wifiReserved_backslash]; omega
    · simp [h, ih, reservedCount_cons]

theorem reservedCount_eq_zero_iff (s : Str) :
    reservedCount s = 0 ↔ ∀ c ∈ s, wifiReserved c = false := by
  unfold reservedCount
  simp [List.countP_eq_zero]

theorem escapeWifi_of_no_reserved (s : Str) (h : ∀ c ∈ s, wifiReserved c = false) :
    escapeWifi s = s := by
  induction s with
  | nil => rfl
  | cons c s ih =>
    rw [escapeWifi_cons]
    have hc : wifiReserved c = false := h c (List.mem_cons_self c s)
    simp [hc]
    exact ih fun d hd => h d (List.mem_cons_of_mem c hd)

/-- Claim C4: with k reserved characters in s, `escapeWifi s` has length
|s| + k and `escapeWifi (escapeWifi s)` has length |s| + 3k; escaping twice
differs from escaping once for every s that contains a reserved character, and
the two agree exactly when s contains none. -/
theorem escapeWifi_twice (s : Str) :
    (escapeWifi s).length = s.length + reservedCount s ∧
    (escapeWifi (escapeWifi s)).length = s.length + 3 * reservedCount s ∧
    ((∃ c ∈ s, wifiReserved c = true) → escapeWifi (escapeWifi s) ≠ escapeWifi s) ∧
    (escapeWifi (escapeWifi s) = escapeWifi s ↔ ∀ c ∈ s, wifiReserved c = false) := by
  have h1 := escapeWifi_length s
  have h2 : (escapeWifi (escapeWifi s)).length = s.length + 3 * reservedCount s := by
    rw [escapeWifi_length, reservedCount_escapeWifi, h1]; omega
  have h4 : escapeWifi (escapeWifi s) = escapeWifi s ↔ ∀ c ∈ s, wifiReserved c = false := by
    constructor
    · intro e
      have hl := congrArg List.length e
      rw [h2, h1] at hl
      rw [← reservedCount_eq_zero_iff]
      omega
    · intro hn
      rw [escapeWifi_of_no_reserved s hn, escapeWifi_of_no_reserved s hn]
  refine ⟨h1, h2, ?_, h4⟩
  rintro ⟨c, hc, hr⟩ e
  have := h4.mp e c hc
  rw [hr] at this
  exact Bool.noConfusion this

/-- Witness for claim C1: the Wi-Fi example form. -/
theorem buildPayload_empty_iff_required_blank_witness :
    wifiExample.dataType ∈ contentTypes ∧
    ((buildPayload wifiExample = [] ↔ Blank (requiredField wifiExample)) ∧
      ((∃ c ∈ requiredField wifiExample, isWhiteSpace c = false) →
        buildPayload wifiExample ≠ [])) :=
  ⟨by decide, buildPayload_empty_iff_required_blank wifiExample (by decide)⟩

/-! ## Query serialisation: lemmas -/

theorem urlencodedSerialize_of_ne_nil (out : Str) (hout : out ≠ []) (rest : List (Str × Str)) :
    urlencodedSerialize out rest =
      out ++ (rest.map fun p => '&' :: (urlencode p.1 ++ ['='] ++ urlencode p.2)).flatten := by
  induction rest generalizing out with
  | nil => simp [urlencodedSerialize]
  | cons p rest ih =>
    obtain ⟨name, value⟩ := p
    have hne : out ++ ['&'] ++ urlencode name ++ ['='] ++ urlencode value ≠ [] := by simp
    simp only [urlencodedSerialize]
    have he : out.isEmpty = false := by
      cases out with
      | nil => exact absurd rfl hout
      | cons a b => rfl
    simp only [he, Bool.false_eq_true, if_false]
    rw [ih _ hne]
    simp

theorem specQuery_cons (p : Str × Str) (rest : List (Str × Str)) :
    specQuery (p :: rest) =
      (urlencode p.1 ++ ['='] ++ urlencode p.2) ++
        (rest.map fun q => '&' :: (urlencode q.1 ++ ['='] ++ urlencode q.2)).flatten := by
  induction rest generalizing p with
  | nil => simp [specQuery, List.intercalate]
  | cons q rest ih =>
    have h := ih q
    simp only [specQuery, List.intercalate, List.map_cons, List.intersperse_cons_cons,
      List.flatten_cons] at h ⊢
    rw [h]
    simp

/-- The serialiser of `URLSearchParams` writes the pairs joined by `&`. -/
theorem toStr_eq_specQuery (params : URLSearchParams) : params.toStr = specQuery params := by
  cases params with
  | nil => rfl
  | cons p rest =>
    obtain ⟨name, value⟩ := p
    rw [specQuery_cons]
    simp only [URLSearchParams.toStr, urlencodedSerialize, List.isEmpty_nil, if_true,
      List.nil_append]
    rw [urlencodedSerialize_of_ne_nil _ (by simp)]

/-- Claim C3: for type email with a recipient that is non-empty after trimming,
the payload is `mailto:` + recipient when the trimmed subject and body are both
empty, and otherwise `mailto:` + recipient + `?` + Q, with Q the form-urlencoded
serialisation of the non-blank pairs among subject and body, subject first,
joined by `&`; the recipient is not encoded and the two parameter names encode
to themselves; the recipient `a@b.com` with an empty subject and the body `hi`
gives `mailto:a@b.com?body=hi`. -/
theorem buildPayload_email_format (f : Fields) (h : f.dataType = lit "email")
    (hr : trim f.emailTo ≠ []) :
    (buildPayload f =
      if trim f.emailSubject = [] ∧ trim f.emailBody = [] then lit "mailto:" ++ trim f.emailTo
      else lit "mailto:" ++ trim f.emailTo ++ lit "?" ++
        specQuery (nonBlankPairs (trim f.emailSubject) (trim f.emailBody))) ∧
    (urlencode (lit "subject") = lit "subject" ∧ urlencode (lit "body") = lit "body") ∧
    (f.emailTo = lit "a@b.com" → f.emailSubject = [] → f.emailBody = lit "hi" →
      buildPayload f = lit "mailto:a@b.com?body=hi") := by
  refine ⟨?_, ⟨by decide, by decide⟩, ?_⟩
  · rw [buildPayload_email f h, if_neg hr]
    by_cases hs : trim f.emailSubject = [] <;> by_cases hb : trim f.emailBody = [] <;>
      simp [hs, hb, specQuery, nonBlankPairs, List.intercalate]
  · intro h1 h2 h3
    rw [buildPayload_email f h, h1, h2, h3]
    decide

/-- Witness for claim C3: the specification's example form. -/
theorem buildPayload_email_format_witness :
    (emailExample.dataType = lit "email" ∧ trim emailExample.emailTo ≠ []) ∧
    buildPayload emailExample = lit "mailto:a@b.com?body=hi" :=
  ⟨⟨rfl, by decide⟩, (buildPayload_email_format emailExample rfl (by decide)).2.2 rfl rfl rfl⟩

/-! ## Decoding: lemmas -/

theorem wifiReserved_false_ne (c : Char) (h : wifiReserved c = false) :
    c ≠ backslash ∧ c ≠ ';' ∧ c ≠ ':' := by
  simp [wifiReserved] at h
  tauto

theorem unescapeWifi_escapeWifi (s : Str) : unescapeWifi (escapeWifi s) = s := by
  induction s with
  | nil => rfl
  | cons c s ih =>
    rw [escapeWifi_cons]
    by_cases h : wifiReserved c = true
    · simp [h, unescapeWifi, ih]
    · have hc := (wifiReserved_false_ne c (by simpa using h)).1
      simp only [h, Bool.false_eq_true, if_false]
      cases hE : escapeWifi s with
      | nil =>
        rw [hE] at ih
        simp [unescapeWifi, ← ih]
      | cons d r =>
        rw [hE] at ih
        simp [unescapeWifi, hc, ih]

theorem escapeWifi_injective (s t : Str) (h : escapeWifi s = escapeWifi t) : s = t := by
  rw [← unescapeWifi_escapeWifi s, ← unescapeWifi_escapeWifi t, h]

theorem decodeField_escapeWifi (s rest : Str) :
    decodeField (escapeWifi s ++ ';' :: rest) = (s, rest) := by
  induction s with
  | nil =>
    cases rest with
    | nil => simp [escapeWifi_nil, decodeField]
    | cons d r =>
      have : (';' : Char) ≠ backslash := by decide
      simp [escapeWifi_nil, decodeField, this]
  | cons c s ih =>
    rw [escapeWifi_cons]
    by_cases h : wifiReserved c = true
    · simp [h, decodeField, ih]
    · obtain ⟨h1, h2, _⟩ := wifiReserved_false_ne c (by simpa using h)
      simp only [h, Bool.false_eq_true, if_false, List.cons_append]
      cases hE : escapeWifi s ++ ';' :: rest with
      | nil => simp at hE
      | cons d r =>
        rw [hE] at ih
        simp [decodeField, h1, h2, ih]

theorem hasSColon_cons (a : Char) (l : Str) :
    hasSColon (a :: l) = ((a == 'S' && l.head? == some ':') || hasSColon l) := by
  cases l with
  | nil => simp [hasSColon]
  | cons b r => simp [hasSColon]

theorem head_escapeWifi_append (s rest : Str) (hr : rest.head? ≠ some ':') :
    (escapeWifi s ++ rest).head? ≠ some ':' := by
  cases s with
  | nil => simpa [escapeWifi_nil] using hr
  | cons c s =>
    rw [escapeWifi_cons]
    by_cases h : wifiReserved c = true
    · simp [h]; decide
    · obtain ⟨_, _, h3⟩ := wifiReserved_false_ne c (by simpa using h)
      simp [h, h3]

theorem hasSColon_escapeWifi_append (s rest : Str) (hr : rest.head? ≠ some ':')
    (hn : hasSColon rest = false) : hasSColon (escapeWifi s ++ rest) = false := by
  induction s with
  | nil => simpa [escapeWifi_nil] using hn
  | cons c s ih =>
    have hh := head_escapeWifi_append s rest hr
    rw [escapeWifi_cons]
    by_cases h : wifiReserved c = true
    · have hS : c ≠ 'S' := by
        intro e; rw [e] at h; revert h; decide
      have hb : (backslash == 'S') = false := by decide
      simp only [h, if_true, List.cons_append, hasSColon_cons, hb, Bool.false_and,
        Bool.false_or, ih, Bool.or_false, Bool.and_eq_false_imp, beq_iff_eq]
      intro e
      exact absurd e hS
    · simp only [h, Bool.false_eq_true, if_false, List.cons_append, hasSColon_cons, ih,
        Bool.or_false, Bool.and_eq_false_imp, beq_iff_eq]
      intro _
      simpa using hh

theorem hasSColon_of_occurrence (a b : Str) : hasSColon (a ++ 'S' :: ':' :: b) = true := by
  induction a with
  | nil => simp [hasSColon]
  | cons x a ih =>
    rw [List.cons_append, hasSColon_cons, ih]
    simp

theorem hasSColon_wifiTail (ssid password : Str) (hidden : Bool) :
    hasSColon (wifiTail ssid password hidden) = false := by
  unfold wifiTail
  simp only [List.append_assoc]
  apply hasSColon_escapeWifi_append
  · simp [lit_semicolon]
  · by_cases hp : password = []
    · cases hidden <;> simp only [hp, if_true] <;> decide
    · simp only [hp, if_false, lit_password_tag, lit_semicolon, List.cons_append,
        List.nil_append, List.append_assoc, hasSColon_cons]
      have := hasSColon_escapeWifi_append password
        (';' :: ((if hidden = true then lit "H:true;" else []) ++ [';'])) (by simp)
        (by cases hidden <;> decide)
      rw [this]
      simp

theorem split_at_ssid_tag (e1 e2 t1 t2 : Str) (h1 : hasSColon t1 = false)
    (h2 : hasSColon t2 = false)
    (h : e1 ++ ';' :: 'S' :: ':' :: t1 = e2 ++ ';' :: 'S' :: ':' :: t2) :
    e1 = e2 ∧ t1 = t2 := by
  rcases List.append_eq_append_iff.mp h with ⟨w, hw, hrest⟩ | ⟨w, hw, hrest⟩
  · -- e2 = e1 ++ w
    cases w with
    | nil => simp at hw hrest; exact ⟨hw.symm, hrest.symm ▸ rfl⟩
    | cons x w =>
      exfalso
      simp only [List.cons_append, List.cons.injEq] at hrest
      obtain ⟨_, hrest⟩ := hrest
      cases w with
      | nil => simp at hrest
      | cons y w =>
        simp only [List.cons_append, List.cons.injEq] at hrest
        obtain ⟨_, hrest⟩ := hrest
        cases w with
        | nil => simp at hrest
        | cons z w =>
          simp only [List.cons_append, List.cons.injEq] at hrest
          obtain ⟨_, hrest⟩ := hrest
          have := hasSColon_of_occurrence (w ++ [';']) t2
          simp only [List.append_assoc, List.singleton_append] at this
          rw [← hrest, h1] at this
          exact Bool.noConfusion this
  · cases w with
    | nil => simp at hw hrest; exact ⟨hw, hrest.symm⟩
    | cons x w =>
      exfalso
      simp only [List.cons_append, List.cons.injEq] at hrest
      obtain ⟨_, hrest⟩ := hrest
      cases w with
      | nil => simp at hrest
      | cons y w =>
        simp only [List.cons_append, List.cons.injEq] at hrest
        obtain ⟨_, hrest⟩ := hrest
        cases w with
        | nil => simp at hrest
        | cons z w =>
          simp only [List.cons_append, List.cons.injEq] at hrest
          obtain ⟨_, hrest⟩ := hrest
          have := hasSColon_of_occurrence (w ++ [';']) t1
          simp only [List.append_assoc, List.singleton_append] at this
          rw [← hrest, h2] at this
          exact Bool.noConfusion this

theorem buildPayload_wifi_tail (f : Fields) (h : f.dataType = lit "wifi")
    (hs : trim f.wifiSsid ≠ []) :
    buildPayload f =
      lit "WIFI:T:" ++ (f.wifiEncryption ++ ';' :: 'S' :: ':' ::
        wifiTail (trim f.wifiSsid) (trim f.wifiPassword) f.wifiHidden) := by
  rw [buildPayload_wifi f h, if_neg hs]
  simp [wifiTail, lit_ssid_tag]

theorem wifiTail_eq (s p : Str) (h : Bool) :
    wifiTail s p h =
      escapeWifi s ++ ';' :: ((if p = [] then [] else 'P' :: ':' :: (escapeWifi p ++ [';'])) ++
        ((if h = true then lit "H:true;" else []) ++ [';'])) := by
  unfold wifiTail
  by_cases hp : p = [] <;> simp [hp, lit_semicolon, lit_password_tag]

theorem wifiTail_injective (s1 p1 s2 p2 : Str) (h1 h2 : Bool)
    (h : wifiTail s1 p1 h1 = wifiTail s2 p2 h2) : s1 = s2 ∧ p1 = p2 ∧ h1 = h2 := by
  rw [wifiTail_eq, wifiTail_eq] at h
  have hd := congrArg decodeField h
  rw [decodeField_escapeWifi, decodeField_escapeWifi] at hd
  simp only [Prod.mk.injEq] at hd
  obtain ⟨hs, hrest⟩ := hd
  refine ⟨hs, ?_⟩
  by_cases e1 : p1 = [] <;> by_cases e2 : p2 = []
  · simp only [e1, e2, if_true, List.nil_append] at hrest
    refine ⟨by rw [e1, e2], ?_⟩
    revert hrest
    cases h1 <;> cases h2 <;> decide
  · exfalso
    simp only [e1, e2, if_true, if_false, List.nil_append, lit_password_tag,
      List.cons_append] at hrest
    revert hrest
    cases h1 <;> simp [lit_hidden]
  · exfalso
    simp only [e1, e2, if_true, if_false, List.nil_append, lit_password_tag,
      List.cons_append] at hrest
    revert hrest
    cases h2 <;> simp [lit_hidden]
  · simp only [e1, e2, if_false, lit_password_tag, List.cons_append, List.nil_append,
      List.cons.injEq, true_and, List.append_assoc, List.singleton_append] at hrest
    have hd := congrArg decodeField hrest
    rw [decodeField_escapeWifi, decodeField_escapeWifi] at hd
    simp only [Prod.mk.injEq] at hd
    refine ⟨hd.1, ?_⟩
    have hh := hd.2
    revert hh
    cases h1 <;> cases h2 <;> decide

/-- Claim C10: `escapeWifi` loses no information. The decoder that replaces each
backslash-and-next-character pair by that next character inverts it, so it is
injective; and two Wi-Fi forms with non-blank SSIDs that give the same payload
have the same trimmed SSID, trimmed password, encryption and hidden flag, the
SSID and the password being read back from the payload by `decodeField`. -/
theorem escapeWifi_lossless :
    (∀ s : Str, unescapeWifi (escapeWifi s) = s) ∧
    (∀ s t : Str, escapeWifi s = escapeWifi t → s = t) ∧
    (∀ f g : Fields, f.dataType = lit "wifi" → g.dataType = lit "wifi" →
      trim f.wifiSsid ≠ [] → trim g.wifiSsid ≠ [] → buildPayload f = buildPayload g →
      trim f.wifiSsid = trim g.wifiSsid ∧ trim f.wifiPassword = trim g.wifiPassword ∧
        f.wifiEncryption = g.wifiEncryption ∧ f.wifiHidden = g.wifiHidden) ∧
    (∀ f : Fields, f.dataType = lit "wifi" → trim f.wifiSsid ≠ [] →
      ∃ tail : Str,
        buildPayload f = lit "WIFI:T:" ++ f.wifiEncryption ++ lit ";S:" ++ tail ∧
        (decodeField tail).1 = trim f.wifiSsid ∧
        (trim f.wifiPassword ≠ [] →
          (decodeField ((decodeField tail).2.drop 2)).1 = trim f.wifiPassword)) := by
  refine ⟨unescapeWifi_escapeWifi, escapeWifi_injective, ?_, ?_⟩
  · intro f g hf hg hsf hsg h
    rw [buildPayload_wifi_tail f hf hsf, buildPayload_wifi_tail g hg hsg] at h
    have h' := List.append_cancel_left h
    obtain ⟨he, ht⟩ := split_at_ssid_tag _ _ _ _ (hasSColon_wifiTail _ _ _)
      (hasSColon_wifiTail _ _ _) h'
    obtain ⟨a, b, c⟩ := wifiTail_injective _ _ _ _ _ _ ht
    exact ⟨a, b, he, c⟩
  · intro f hf hs
    refine ⟨wifiTail (trim f.wifiSsid) (trim f.wifiPassword) f.wifiHidden, ?_, ?_, ?_⟩
    · rw [buildPayload_wifi_tail f hf hs]
      simp [lit_ssid_tag]
    · rw [wifiTail_eq, decodeField_escapeWifi]
    · intro hp
      rw [wifiTail_eq, decodeField_escapeWifi]
      simp only [hp, if_false, List.cons_append, List.drop_succ_cons, List.drop_zero,
        List.append_assoc, List.singleton_append]
      rw [decodeField_escapeWifi]

/-! ## UI handlers: lemmas -/

theorem validatePayload_empty (s : UI) :
    validatePayload [] s =
      (false, setStatus (lit "Add content to generate a QR code.") (lit "error") s) := rfl

theorem validatePayload_nonempty (payload : Str) (s : UI) (h : payload ≠ []) :
    validatePayload payload s = (true, s) := by
  cases payload with
  | nil => exact absurd rfl h
  | cons c r => rfl

theorem handleGenerate_of_empty (lib : Option QRCodeLib) (s : UI)
    (h : buildPayload s.fields = []) :
    handleGenerate lib s =
      setStatus (lit "Add content to generate a QR code.") (lit "error")
        (updatePayloadPreview s) := by
  simp [handleGenerate, h, validatePayload_empty]

theorem handleGenerate_of_nonempty (lib : Option QRCodeLib) (s : UI)
    (h : buildPayload s.fields ≠ []) :
    handleGenerate lib s =
      generateQRCode lib (buildPayload s.fields)
        (setStatus (lit "Generating QR code...") (lit "info") (updatePayloadPreview s)) := by
  simp [handleGenerate, validatePayload_nonempty _ _ h]

/-- Claim C5: when `buildPayload` yields the empty string, `handleGenerate` does
not call `generateQRCode` (nor the library constructor), leaves the QR container
and the download link as they were, and ends with the status set to the
validation failure message with tone error. -/
theorem handleGenerate_empty_payload (lib : Option QRCodeLib) (s : UI)
    (h : buildPayload s.fields = []) :
    (handleGenerate lib s).generateLog = s.generateLog ∧
    (handleGenerate lib s).renderLog = s.renderLog ∧
    (handleGenerate lib s).qr = s.qr ∧
    (handleGenerate lib s).download = s.download ∧
    (handleGenerate lib s).statusText = lit "Add content to generate a QR code." ∧
    (handleGenerate lib s).statusTone = some (lit "error") := by
  rw [handleGenerate_of_empty lib s h]
  simp [setStatus, updatePayloadPreview]

/-- Witness for claim C5: the empty form, with the library loaded. -/
theorem handleGenerate_empty_payload_witness :
    buildPayload sampleUI.fields = [] ∧
    (handleGenerate (some sampleLib) sampleUI).generateLog = sampleUI.generateLog ∧
    (handleGenerate (some sampleLib) sampleUI).renderLog = sampleUI.renderLog ∧
    (handleGenerate (some sampleLib) sampleUI).qr = sampleUI.qr ∧
    (handleGenerate (some sampleLib) sampleUI).download = sampleUI.download ∧
    (handleGenerate (some sampleLib) sampleUI).statusText =
      lit "Add content to generate a QR code." ∧
    (handleGenerate (some sampleLib) sampleUI).statusTone = some (lit "error") :=
  ⟨by decide, handleGenerate_empty_payload (some sampleLib) sampleUI (by decide)⟩

theorem contains_classToggle (classes : List Str) (token : Str) (force : Bool) :
    (classToggle classes token force).contains token = force := by
  cases force with
  | true =>
    unfold classToggle classAdd
    by_cases h : token ∈ classes <;> simp [h]
  | false =>
    unfold classToggle classRemove
    simp

theorem visible_after_toggle (g : Group) (t : Str) :
    Group.visible
      { g with classList := classToggle g.classList (lit "hidden") (g.groupType != t) } =
      decide (g.groupType = t) := by
  unfold Group.visible
  rw [contains_classToggle]
  by_cases h : g.groupType = t <;> simp [h]

/-- Claim C6: in a form where every enumerated type tags exactly one field
group, after `updateTypeVisibility` runs with the enumerated type t selected a
group is visible exactly when its tag is t, exactly one group is visible, and
the tags are the ones the groups had, whatever the class lists were before; the
same holds after the `change` listener of the type selector. -/
theorem updateTypeVisibility_exactly_one (s : UI) (t : Str) (ht : t ∈ contentTypes)
    (hsel : s.fields.dataType = t)
    (hform : ∀ u ∈ contentTypes, (s.typeGroups.countP fun g => g.groupType = u) = 1) :
    ((∀ g ∈ (updateTypeVisibility s).typeGroups, g.visible = true ↔ g.groupType = t) ∧
      ((updateTypeVisibility s).typeGroups.filter Group.visible).length = 1 ∧
      (updateTypeVisibility s).typeGroups.map Group.groupType =
        s.typeGroups.map Group.groupType) ∧
    (typeChangeListener s).typeGroups = (updateTypeVisibility s).typeGroups := by
  refine ⟨⟨?_, ?_, ?_⟩, rfl⟩
  · intro g hg
    simp only [updateTypeVisibility, List.mem_map] at hg
    obtain ⟨g0, _, rfl⟩ := hg
    rw [hsel, visible_after_toggle]
    simp
  · rw [← hform t ht, List.countP_eq_length_filter]
    simp only [updateTypeVisibility, hsel, List.filter_map, List.length_map]
    congr 1
    apply List.filter_congr
    intro g _
    simp only [Function.comp, visible_after_toggle]
  · simp [updateTypeVisibility, Function.comp]

/-- Witness for claim C6: the six groups, all shown, with type url selected. -/
theorem updateTypeVisibility_exactly_one_witness :
    (lit "url" ∈ contentTypes ∧ sampleUI.fields.dataType = lit "url" ∧
      ∀ u ∈ contentTypes, (sampleUI.typeGroups.countP fun g => g.groupType = u) = 1) ∧
    ((∀ g ∈ (updateTypeVisibility sampleUI).typeGroups,
        g.visible = true ↔ g.groupType = lit "url") ∧
      ((updateTypeVisibility sampleUI).typeGroups.filter Group.visible).length = 1 ∧
      (updateTypeVisibility sampleUI).typeGroups.map Group.groupType =
        sampleUI.typeGroups.map Group.groupType) ∧
    (typeChangeListener sampleUI).typeGroups = (updateTypeVisibility sampleUI).typeGroups :=
  ⟨⟨by decide, rfl, by decide⟩,
    updateTypeVisibility_exactly_one sampleUI (lit "url") (by decide) rfl (by decide)⟩

theorem generateQRCode_statusLog (lib : Option QRCodeLib) (payload : Str) (s : UI) :
    (generateQRCode lib payload s).statusLog =
      s.statusLog ++
        (match lib with
          | none => [(lit "QR library still loading. Try again in a moment.", lit "error")]
          | some QRCode =>
            if (QRCode.construct (optionsFor QRCode payload s.fields)).2 = true then
              [(lit "QR code ready to download.", lit "success")]
            else []) := by
  cases lib with
  | none => simp [generateQRCode, clearQRCode, setDownloadState, setStatus]
  | some QRCode =>
    by_cases h : (QRCode.construct (optionsFor QRCode payload s.fields)).2 = true
    · simp [generateQRCode, clearQRCode, setDownloadState, setStatus, optionsFor] at h ⊢
      simp [h]
      split_ifs <;> rfl
    · simp [generateQRCode, clearQRCode, setDownloadState, setStatus, optionsFor] at h ⊢
      simp [h]

theorem handleReset_statusLog (s : UI) :
    (handleReset s).statusLog =
      s.statusLog ++ [(lit "Form reset. Ready for a new QR code.", lit "info")] := by
  simp [handleReset, clearQRCode, setDownloadState, setStatus, updatePayloadPreview,
    updateSizeLabel, updateTypeVisibility]

theorem typeChangeListener_statusLog (s : UI) :
    (typeChangeListener s).statusLog = s.statusLog := rfl

theorem handleGenerate_statusLog_empty (lib : Option QRCodeLib) (s : UI)
    (h : buildPayload s.fields = []) :
    (handleGenerate lib s).statusLog =
      s.statusLog ++ [(lit "Add content to generate a QR code.", lit "error")] := by
  rw [handleGenerate_of_empty lib s h]
  rfl

theorem handleGenerate_statusLog_nonempty (lib : Option QRCodeLib) (s : UI)
    (h : buildPayload s.fields ≠ []) :
    (handleGenerate lib s).statusLog =
      s.statusLog ++ (lit "Generating QR code...", lit "info") ::
        (match lib with
          | none => [(lit "QR library still loading. Try again in a moment.", lit "error")]
          | some QRCode =>
            if (QRCode.construct (optionsFor QRCode (buildPayload s.fields) s.fields)).2 = true
            then [(lit "QR code ready to download.", lit "success")]
            else []) := by
  rw [handleGenerate_of_nonempty lib s h, generateQRCode_statusLog]
  simp [setStatus, updatePayloadPreview]

theorem formInputCallback_eq (lib : Option QRCodeLib) (s : UI) :
    formInputCallback lib s =
      if s.fields.autoGenerate = true then handleGenerate lib (updatePayloadPreview s)
      else updatePayloadPreview s := rfl

theorem handleGenerate_updatePayloadPreview (lib : Option QRCodeLib) (s : UI) :
    handleGenerate lib (updatePayloadPreview s) = handleGenerate lib s := by
  simp [handleGenerate, updatePayloadPreview]

/-- Claim C8, amended: the status is set once by reset (info) and once by a
generate with an empty payload (error); a generate with a non-empty payload
first sets `Generating QR code...` (info) and then sets the status a second
time, to the library-loading error or to the success message, unless the
library constructor throws; the type-change listener sets no status; the
debounced field-edit callback sets none when auto-generate is off and does what
generate does when it is on. Every tone set is info, success or error. -/
theorem status_messages_per_operation (lib : Option QRCodeLib) (s : UI) :
    (typeChangeListener s).statusLog = s.statusLog ∧
    (handleReset s).statusLog =
      s.statusLog ++ [(lit "Form reset. Ready for a new QR code.", lit "info")] ∧
    (buildPayload s.fields = [] →
      (handleGenerate lib s).statusLog =
        s.statusLog ++ [(lit "Add content to generate a QR code.", lit "error")]) ∧
    (buildPayload s.fields ≠ [] → lib = none →
      (handleGenerate lib s).statusLog =
        s.statusLog ++ [(lit "Generating QR code...", lit "info"),
          (lit "QR library still loading. Try again in a moment.", lit "error")]) ∧
    (∀ QRCode : QRCodeLib, buildPayload s.fields ≠ [] → lib = some QRCode →
      (QRCode.construct (optionsFor QRCode (buildPayload s.fields) s.fields)).2 = true →
      (handleGenerate lib s).statusLog =
        s.statusLog ++ [(lit "Generating QR code...", lit "info"),
          (lit "QR code ready to download.", lit "success")]) ∧
    (∀ QRCode : QRCodeLib, buildPayload s.fields ≠ [] → lib = some QRCode →
      (QRCode.construct (optionsFor QRCode (buildPayload s.fields) s.fields)).2 = false →
      (handleGenerate lib s).statusLog =
        s.statusLog ++ [(lit "Generating QR code...", lit "info")]) ∧
    (s.fields.autoGenerate = false → (formInputCallback lib s).statusLog = s.statusLog) ∧
    (s.fields.autoGenerate = true →
      (formInputCallback lib s).statusLog = (handleGenerate lib s).statusLog) ∧
    (∀ r ∈ [typeChangeListener s, handleReset s, handleGenerate lib s,
        formInputCallback lib s],
      ∃ added : List (Str × Str), r.statusLog = s.statusLog ++ added ∧ added.length ≤ 2 ∧
        ∀ m ∈ added, m.2 ∈ tones) := by
  have hgen : ∃ added : List (Str × Str),
      (handleGenerate lib s).statusLog = s.statusLog ++ added ∧ added.length ≤ 2 ∧
        ∀ m ∈ added, m.2 ∈ tones := by
    by_cases h : buildPayload s.fields = []
    · exact ⟨_, handleGenerate_statusLog_empty lib s h, by simp, by simp [tones]⟩
    · refine ⟨_, handleGenerate_statusLog_nonempty lib s h, ?_, ?_⟩
      · cases lib with
        | none => simp
        | some QRCode => simp only [List.length_cons]; split_ifs <;> simp
      · cases lib with
        | none => simp [tones]
        | some QRCode =>
          intro m hm
          simp only [List.mem_cons] at hm
          rcases hm with rfl | hm
          · simp [tones]
          · split_ifs at hm
            · simp only [List.mem_singleton] at hm
              rw [hm]; simp [tones]
            · simp at hm
  refine ⟨rfl, handleReset_statusLog s, handleGenerate_statusLog_empty lib s, ?_, ?_, ?_, ?_, ?_,
    ?_⟩
  · intro h hl
    rw [handleGenerate_statusLog_nonempty lib s h, hl]
  · intro QRCode h hl hc
    rw [handleGenerate_statusLog_nonempty lib s h, hl]
    simp [hc]
  · intro QRCode h hl hc
    rw [handleGenerate_statusLog_nonempty lib s h, hl]
    simp [hc]
  · intro h
    rw [formInputCallback_eq]
    simp [h, updatePayloadPreview]
  · intro h
    rw [formInputCallback_eq, if_pos h, handleGenerate_updatePayloadPreview]
  · intro r hr
    simp only [List.mem_cons, List.mem_singleton, List.not_mem_nil, or_false] at hr
    rcases hr with rfl | rfl | rfl | rfl
    · exact ⟨[], by simp [typeChangeListener_statusLog], by simp, by simp⟩
    · exact ⟨_, handleReset_statusLog s, by simp, by simp [tones]⟩
    · exact hgen
    · rw [formInputCallback_eq]
      by_cases h : s.fields.autoGenerate = true
      · rw [if_pos h, handleGenerate_updatePayloadPreview]
        exact hgen
      · rw [if_neg h]
        exact ⟨[], by simp [updatePayloadPreview], by simp, by simp⟩

/-- Counterexample to claim C8 as stated: on the sample document the type-change
listener sets no status message, and a generate with a URL typed in and the
library loaded sets two. -/
theorem status_exactly_once_counterexample :
    (¬ ∃ m : Str × Str, (typeChangeListener sampleUI).statusLog = sampleUI.statusLog ++ [m]) ∧
    (¬ ∃ m : Str × Str,
      (handleGenerate (some sampleLib) urlUI).statusLog = urlUI.statusLog ++ [m]) ∧
    (handleGenerate (some sampleLib) urlUI).statusLog =
      [(lit "Generating QR code...", lit "info"),
        (lit "QR code ready to download.", lit "success")] := by
  have h3 : (handleGenerate (some sampleLib) urlUI).statusLog =
      [(lit "Generating QR code...", lit "info"),
        (lit "QR code ready to download.", lit "success")] := by decide
  refine ⟨?_, ?_, h3⟩
  · rintro ⟨m, hm⟩
    have := congrArg List.length hm
    simp [typeChangeListener_statusLog] at this
  · rintro ⟨m, hm⟩
    have := congrArg List.length hm
    rw [h3] at this
    simp [urlUI, sampleUI] at this

/-! ## Download link: lemmas -/

theorem disabled_not_enabled (d : Download) (h : d.disabled) : ¬ d.enabled := by
  intro he
  exact he.2.2.1 h.2.2

theorem setDownloadState_qr (url : Str) (s : UI) : (setDownloadState url s).qr = s.qr := by
  unfold setDownloadState
  split_ifs <;> rfl

theorem setDownloadState_empty (s : UI) : (setDownloadState [] s).download.disabled := by
  unfold setDownloadState Download.disabled classAdd
  by_cases h : lit "is-disabled" ∈ s.download.classList <;> simp [h]

theorem setDownloadState_nonempty (url : Str) (s : UI) (h : url ≠ []) :
    (setDownloadState url s).download.enabled ∧
      (setDownloadState url s).download.href = some url := by
  unfold setDownloadState Download.enabled classRemove
  cases url with
  | nil => exact absurd rfl h
  | cons c r => simp

theorem clearQRCode_qr (s : UI) : (clearQRCode s).qr = [QrNode.placeholder] := by
  unfold clearQRCode
  rw [setDownloadState_qr]

theorem clearQRCode_disabled (s : UI) : (clearQRCode s).download.disabled :=
  setDownloadState_empty _

theorem getQrImageUrl_placeholder : getQrImageUrl [QrNode.placeholder] = [] := rfl

theorem generateQRCode_none (payload : Str) (s : UI) :
    generateQRCode none payload s =
      setStatus (lit "QR library still loading. Try again in a moment.") (lit "error")
        (clearQRCode { s with generateLog := s.generateLog ++ [payload] }) := rfl

theorem generateQRCode_some (QRCode : QRCodeLib) (payload : Str) (s : UI) :
    generateQRCode (some QRCode) payload s =
      if (QRCode.construct (optionsFor QRCode payload s.fields)).2 = true then
        setStatus (lit "QR code ready to download.") (lit "success")
          (setDownloadState
            (getQrImageUrl (QRCode.construct (optionsFor QRCode payload s.fields)).1)
            { clearQRCode { s with generateLog := s.generateLog ++ [payload] } with
              qr := (QRCode.construct (optionsFor QRCode payload s.fields)).1,
              renderLog := s.renderLog ++ [optionsFor QRCode payload s.fields] })
      else
        { clearQRCode { s with generateLog := s.generateLog ++ [payload] } with
          qr := (QRCode.construct (optionsFor QRCode payload s.fields)).1,
          renderLog := s.renderLog ++ [optionsFor QRCode payload s.fields] } := by
  simp [generateQRCode, optionsFor, clearQRCode, setDownloadState, setStatus]

theorem inv_of_disabled (lib : Option QRCodeLib) (ui : UI) (hd : ui.download.disabled)
    (hl : lib = none → ui.qr = [QrNode.placeholder]) :
    DownloadInv { lib := lib, ui := ui } :=
  ⟨Or.inl hd, fun he => absurd he (disabled_not_enabled _ hd), fun _ => hd, hl⟩

/-- What `generateQRCode` leaves behind, whatever the state before. -/
theorem generateQRCode_inv (lib : Option QRCodeLib) (payload : Str) (s : UI) :
    DownloadInv { lib := lib, ui := generateQRCode lib payload s } := by
  cases lib with
  | none =>
    rw [generateQRCode_none]
    refine inv_of_disabled _ _ (clearQRCode_disabled _) fun _ => ?_
    simp only [setStatus]
    exact clearQRCode_qr _
  | some QRCode =>
    rw [generateQRCode_some]
    by_cases hb : (QRCode.construct (optionsFor QRCode payload s.fields)).2 = true
    · rw [if_pos hb]
      by_cases hu : getQrImageUrl (QRCode.construct (optionsFor QRCode payload s.fields)).1 = []
      · rw [hu]
        exact inv_of_disabled _ _ (setDownloadState_empty _) fun h => Option.noConfusion h
      · obtain ⟨he, hh⟩ := setDownloadState_nonempty _
          { clearQRCode { s with generateLog := s.generateLog ++ [payload] } with
            qr := (QRCode.construct (optionsFor QRCode payload s.fields)).1,
            renderLog := s.renderLog ++ [optionsFor QRCode payload s.fields] } hu
        refine ⟨Or.inr he, fun _ => ?_, fun hq => ?_, fun h => Option.noConfusion h⟩
        · simp only [setStatus, setDownloadState_qr]
          exact hh
        · exfalso
          simp only [setStatus, setDownloadState_qr] at hq
          rw [hq] at hu
          exact hu getQrImageUrl_placeholder
    · rw [if_neg hb]
      exact inv_of_disabled _ _ (clearQRCode_disabled _) fun h => Option.noConfusion h

theorem handleGenerate_inv (p : Page) (h : DownloadInv p) :
    DownloadInv { p with ui := handleGenerate p.lib p.ui } := by
  by_cases hp : buildPayload p.ui.fields = []
  · rw [handleGenerate_of_empty _ _ hp]
    exact h
  · rw [handleGenerate_of_nonempty _ _ hp]
    exact generateQRCode_inv _ _ _

theorem handleReset_inv (lib : Option QRCodeLib) (s : UI) :
    DownloadInv { lib := lib, ui := handleReset s } :=
  inv_of_disabled _ _ (clearQRCode_disabled _) fun _ => clearQRCode_qr _

theorem startPage_inv (lib : Option QRCodeLib) (s0 : UI) : DownloadInv (startPage lib s0) :=
  inv_of_disabled _ _ (clearQRCode_disabled _) fun _ => clearQRCode_qr _

theorem step_inv (p : Page) (e : Event) (h : DownloadInv p) : DownloadInv (step p e) := by
  cases e with
  | libLoaded QRCode =>
    cases hl : p.lib with
    | none =>
      simp only [step, hl]
      exact ⟨h.1, h.2.1, h.2.2.1, fun hn => Option.noConfusion hn⟩
    | some L =>
      simp only [step, hl]
      exact h
  | edit f => exact h
  | typeChange => exact h
  | formInput =>
    show DownloadInv { p with ui := formInputCallback p.lib p.ui }
    rw [formInputCallback_eq]
    by_cases ha : p.ui.fields.autoGenerate = true
    · rw [if_pos ha, handleGenerate_updatePayloadPreview]
      exact handleGenerate_inv p h
    · rw [if_neg ha]
      exact h
  | sizeInput => exact h
  | generate => exact handleGenerate_inv p h
  | reset => exact handleReset_inv _ _

theorem run_inv (p : Page) (events : List Event) (h : DownloadInv p) :
    DownloadInv (run p events) := by
  induction events generalizing p with
  | nil => exact h
  | cons e es ih => exact ih (step p e) (step_inv p e h)

/-- The link becomes enabled: after a generate with a URL typed in and the
library loaded, its target is the data URL of the canvas that was drawn. -/
theorem download_enabled_after_generate :
    (run (startPage (some sampleLib) urlUI) [Event.generate]).ui.download.enabled ∧
    (run (startPage (some sampleLib) urlUI) [Event.generate]).ui.download.href =
      some (lit "data:image/png;base64,https://example.com") := by
  decide

/-- Claim C9: in every state reached from initialisation by library loading,
field edits, type changes, debounced input callbacks, size changes, generate
and reset, the download link is either disabled with no target or enabled with
a non-empty target, never both; when enabled its target is the URL extracted
from what the QR container holds; it is disabled with no target whenever the
container holds only the placeholder, which is the case at start-up, after
reset, and after a generate made while the library is not loaded. -/
theorem download_link_invariant (lib : Option QRCodeLib) (s0 : UI) (events : List Event) :
    ((run (startPage lib s0) events).ui.download.disabled ∨
      (run (startPage lib s0) events).ui.download.enabled) ∧
    ¬ ((run (startPage lib s0) events).ui.download.disabled ∧
      (run (startPage lib s0) events).ui.download.enabled) ∧
    ((run (startPage lib s0) events).ui.download.enabled →
      (run (startPage lib s0) events).ui.download.href =
        some (getQrImageUrl (run (startPage lib s0) events).ui.qr)) ∧
    ((run (startPage lib s0) events).ui.qr = [QrNode.placeholder] →
      (run (startPage lib s0) events).ui.download.disabled) ∧
    (startPage lib s0).ui.qr = [QrNode.placeholder] ∧
    (step (run (startPage lib s0) events) Event.reset).ui.qr = [QrNode.placeholder] ∧
    ((run (startPage lib s0) events).lib = none →
      (step (run (startPage lib s0) events) Event.generate).ui.qr = [QrNode.placeholder]) := by
  have h := run_inv (startPage lib s0) events (startPage_inv lib s0)
  have hg := step_inv _ Event.generate h
  refine ⟨h.1, fun hb => disabled_not_enabled _ hb.1 hb.2, h.2.1, h.2.2.1, clearQRCode_qr _,
    clearQRCode_qr _, fun hl => hg.2.2.2 hl⟩

/-! ## Debounce: lemmas -/

theorem debouncedCall_first {α : Type} (wait nextId t : Nat) (a : α) :
    Armed (debouncedCall t a (debounce wait nextId)) wait t a := by
  refine ⟨rfl, ?_, nextId, rfl, ?_⟩
  · simp [debouncedCall, fire, debounce, setTimeout, clearTimeout]
  · simp [debouncedCall, fire, debounce, setTimeout, clearTimeout]

theorem debouncedCall_armed {α : Type} (d : Debounced α) (wait t u : Nat) (a b : α)
    (h : Armed d wait t a) (hu : u < t + wait) : Armed (debouncedCall u b d) wait u b := by
  obtain ⟨hw, hc, i, hi, hp⟩ := h
  have hn : ¬ t + wait ≤ u := by omega
  refine ⟨?_, ?_, d.nextId, ?_, ?_⟩
  · simp [debouncedCall, fire, setTimeout, clearTimeout, hi, hw]
  · simp [debouncedCall, fire, setTimeout, clearTimeout, hi, hp, hc, hn]
  · simp [debouncedCall, fire, setTimeout, clearTimeout, hi]
  · simp [debouncedCall, fire, setTimeout, clearTimeout, hi, hp, hn, hw]

theorem debouncedCalls_armed {α : Type} (wait : Nat) (edits : List (Nat × α))
    (d : Debounced α) (t : Nat) (a : α) (h : Armed d wait t a)
    (hchain : List.Chain (fun x y : Nat × α => x.1 ≤ y.1 ∧ y.1 < x.1 + wait) (t, a) edits) :
    Armed (debouncedCalls d edits) wait (((t, a) :: edits).getLast (by simp)).1
      (((t, a) :: edits).getLast (by simp)).2 := by
  induction edits generalizing d t a with
  | nil => simpa [debouncedCalls] using h
  | cons e rest ih =>
    obtain ⟨u, b⟩ := e
    rw [List.chain_cons] at hchain
    have h1 := debouncedCall_armed d wait t u a b h hchain.1.2
    have h2 := ih (debouncedCall u b d) u b h1 hchain.2
    simpa [debouncedCalls, List.getLast_cons] using h2

theorem settle_armed {α : Type} (d : Debounced α) (wait t : Nat) (a : α)
    (h : Armed d wait t a) : (settle d).calls = [(t + wait, a)] ∧ (settle d).pending = [] := by
  obtain ⟨_, hc, i, _, hp⟩ := h
  simp [settle, fire, hc, hp]

/-- Claim C7: for a debounced function with the given wait and a non-empty
sequence of edits at non-decreasing times, each less than the wait after the one
before, no call of the wrapped function is made before the last edit, exactly
one timer is pending after it, and once that timer has run the wrapped function
has been called exactly once, at the time of the last edit plus the wait and
with the arguments of the last edit; no timer is left. -/
theorem debounce_runs_once {α : Type} (wait nextId : Nat) (first : Nat × α)
    (later : List (Nat × α))
    (h : List.Chain (fun x y : Nat × α => x.1 ≤ y.1 ∧ y.1 < x.1 + wait) first later) :
    (debouncedCalls (debounce wait nextId) (first :: later)).calls = [] ∧
    (debouncedCalls (debounce wait nextId) (first :: later)).pending.length = 1 ∧
    (settle (debouncedCalls (debounce wait nextId) (first :: later))).calls =
      [(((first :: later).getLast (by simp)).1 + wait, ((first :: later).getLast (by simp)).2)] ∧
    (settle (debouncedCalls (debounce wait nextId) (first :: later))).pending = [] := by
  obtain ⟨t, a⟩ := first
  have h0 := debouncedCall_first wait nextId t a
  have h1 := debouncedCalls_armed wait later _ t a h0 h
  have h2 := settle_armed _ _ _ _ h1
  have e : debouncedCalls (debounce wait nextId) ((t, a) :: later) =
      debouncedCalls (debouncedCall t a (debounce wait nextId)) later := rfl
  rw [e]
  obtain ⟨_, hc, i, _, hp⟩ := h1
  exact ⟨hc, by rw [hp]; rfl, h2.1, h2.2⟩

/-- Witness for claim C7: three edits 120 ms and 190 ms apart with the wait of
`handleFormInput`; the one call is made at 510 ms with the last arguments. -/
theorem debounce_runs_once_witness :
    List.Chain (fun x y : Nat × Str => x.1 ≤ y.1 ∧ y.1 < x.1 + formInputWait)
        (0, lit "h") [(120, lit "ht"), (310, lit "htt")] ∧
    (settle (debouncedCalls (debounce formInputWait 1) sampleEdits)).calls =
      [(510, lit "htt")] :=
  ⟨by simp [formInputWait],
    (debounce_runs_once formInputWait 1 (0, lit "h") [(120, lit "ht"), (310, lit "htt")]
      (by simp [formInputWait])).2.2.1⟩

end QRGen
